import Mathlib

/-!
# Verification of the publish endpoint orchestration

Shallow embedding of `src/api/endpoint/api/publish.js`: the publish PUT
handler (star/unstar rejection, manifest validation, create/change dispatch,
the `after_change` reconciliation with its inline-attachment flow), the two
DELETE handlers, and the direct tarball-upload event machine. The storage
backend and the manifest validator are abstract parameters; a trace of
backend calls is recorded so that ordering and absence of calls can be
stated.
-/

namespace Publish

/-- An HTTP-style error value, as produced by `ErrorCode.getNNN` or returned
by the storage backend. The `status` field is optional: backend errors may
carry no status code (in JavaScript, `err.status` is then `undefined`). -/
structure Err where
  status : Option Nat
  message : String
deriving DecidableEq

/-- `ErrorCode.get400`: an error with HTTP status 400. -/
def get400 (msg : String) : Err := Err.mk (some 400) msg

/-- `ErrorCode.get404`: an error with HTTP status 404. -/
def get404 (msg : String) : Err := Err.mk (some 404) msg

/-- `ErrorCode.get422`: an error with HTTP status 422. -/
def get422 (msg : String) : Err := Err.mk (some 422) msg

/-- A JavaScript value as far as the star/unstar body check inspects it:
either an object (a mapping) or anything else. -/
inductive JVal
  | obj
  | nonObj
deriving DecidableEq

/-- The request body is a mapping from keys to JavaScript values. -/
abbrev Body := List (String × JVal)

/-- Modelled from the spec: `isObject` from `lib/utils` is not part of the
source slice; per its name and use it tests whether a value is an object
(a mapping). An absent key (`undefined` in JavaScript) is not an object. -/
def isObject : Option JVal → Bool
  | some JVal.obj => true
  | _ => false

/-- Lookup of `body[key]` in a request body. -/
def lookupKey (b : Body) (k : String) : Option JVal :=
  (b.find? (fun p => p.1 == k)).map Prod.snd

/-- The star/unstar body check of the handler:
`Object.keys(req.body).length === 1 && isObject(req.body.users)`. -/
def isStarBody (b : Body) : Bool :=
  b.length == 1 && isObject (lookupKey b "users")

/-- A JavaScript field holding a mapping: it can be absent (lodash `isNil`,
that is `null` or `undefined`), present but not of type object, or an object
with its entries in key order. -/
inductive JField (α : Type)
  | absent
  | nonObject
  | obj (entries : List (String × α))
deriving DecidableEq

/-- An inline attachment payload: the base64-encoded tarball content kept in
its `data` field. -/
structure Attachment where
  data : String
deriving DecidableEq

/-- A version record: the `readme` field written by the orchestrator (absent
before population), and the remaining metadata kept opaque. -/
structure VersionRecord where
  readme : Option String
  rest : String
deriving DecidableEq

/-- The validated manifest, as far as `after_change` inspects it:
`_attachments`, `versions`, the `dist-tags` mapping and the optional
`readme`. -/
structure Metadata where
  name : String
  attachments : JField Attachment
  versions : JField VersionRecord
  distTags : List (String × String)
  readme : Option String
deriving DecidableEq

/-- Writing the `readme` field of a version record, as in
`metadata.versions[t2].readme = ...`. -/
def set_readme (v : VersionRecord) (r : String) : VersionRecord :=
  VersionRecord.mk (some r) v.rest

/-- The readme value stored into the version record:
`_.isNil(metadata.readme) === false ? String(metadata.readme) : ''`. -/
def readme_string : Option String → String
  | some s => s
  | none => ""

/-- The storage backend interface. Each operation either succeeds (`none`)
or fails with an error (`some e`). `addTarball` stands for the whole
attachment-mode tarball write of `create_tarball`: open the write stream for
`(name, filename)`, write the decoded base64 data, finalize; its result is
the `success`/`error` event the stream delivers. -/
structure Backend where
  addPackage : String → Metadata → Option Err
  change_package : String → Metadata → Option String → Option Err
  addTarball : String → String → String → Option Err
  addVersion : String → String → VersionRecord → Option String → Option Err
  mergeTags : String → List (String × String) → Option Err
  remove_package : String → Option Err
  remove_tarball : String → String → String → Option Err

/-- One backend interaction, recorded in order of occurrence. -/
inductive Event
  | addPackageCall
  | changePackageCall
  | tarballWrite (filename : String)
  | versionCommit (version : String) (record : VersionRecord)
  | tagMerge (tags : List (String × String))
  | notifyCall
deriving DecidableEq

/-- The client-visible outcome: an HTTP response with a status and an `ok`
message (`res.status(s); next(body)`), or an error handed to `next`. -/
inductive Outcome
  | response (status : Nat) (ok : String)
  | error (e : Err)
deriving DecidableEq

/-- Node `Path.basename` for POSIX paths: the last path segment, with
trailing slashes removed; `basename ""` is `""` and the basename of a string
of slashes is `"/"`. -/
def basename (p : String) : String :=
  match ((p.splitOn "/").filter (fun s => s != "")).getLast? with
  | some s => s
  | none => if p.isEmpty then "" else "/"

/-- The inline-attachment tail of `after_change`, reached once the manifest
shape is valid and any dispatch error was tolerated: write the tarball named
by the basename of the attachment key, then commit the single version with
its populated readme, then merge the dist-tags, then notify and answer 201.
The first failing step aborts the remaining ones and propagates its error. -/
def tarball_flow (storage : Backend) (name : String) (metadata : Metadata)
    (t1 : String) (a : Attachment) (t2 : String) (v : VersionRecord)
    (ok_message : String) : List Event × Outcome :=
  match storage.addTarball name (basename t1) a.data with
  | some e => ([Event.tarballWrite (basename t1)], Outcome.error e)
  | none =>
      let v2 := set_readme v (readme_string metadata.readme)
      match storage.addVersion name t2 v2 none with
      | some e =>
          ([Event.tarballWrite (basename t1), Event.versionCommit t2 v2],
           Outcome.error e)
      | none =>
          match storage.mergeTags name metadata.distTags with
          | some e =>
              ([Event.tarballWrite (basename t1), Event.versionCommit t2 v2,
                Event.tagMerge metadata.distTags], Outcome.error e)
          | none =>
              ([Event.tarballWrite (basename t1), Event.versionCommit t2 v2,
                Event.tagMerge metadata.distTags, Event.notifyCall],
               Outcome.response 201 ok_message)

/-- `after_change(err, ok_message)` from the source: with no attachments the
dispatch result is authoritative; otherwise the manifest must carry exactly
one attachment and exactly one version (else 400 unsupported registry call),
a dispatch error is tolerated only when its status is 409, and the
attachment flow runs. -/
def after_change (storage : Backend) (name : String) (metadata : Metadata)
    (err : Option Err) (ok_message : String) : List Event × Outcome :=
  match metadata.attachments with
  | JField.absent =>
      match err with
      | some e => ([], Outcome.error e)
      | none => ([], Outcome.response 201 ok_message)
  | JField.nonObject => ([], Outcome.error (get400 "unsupported registry call"))
  | JField.obj atts =>
      match atts, metadata.versions with
      | [(t1, a)], JField.obj [(t2, v)] =>
          (match err with
           | some e =>
               if e.status = some 409 then
                 tarball_flow storage name metadata t1 a t2 v ok_message
               else ([], Outcome.error e)
           | none => tarball_flow storage name metadata t1 a t2 v ok_message)
      | _, _ => ([], Outcome.error (get400 "unsupported registry call"))

/-- JavaScript truthiness of an optional string route parameter
(`if (req.params._rev)`): absent and the empty string are falsy. -/
def truthy : Option String → Bool
  | none => false
  | some s => s != ""

/-- The manifest shape accepted by the attachment flow: `_attachments` is an
object with exactly one entry and `versions` is an object with exactly one
entry. -/
def valid_attachment_shape (m : Metadata) : Bool :=
  match m.attachments, m.versions with
  | JField.obj [_], JField.obj [_] => true
  | _, _ => false

/-- A publish PUT request: the `package`, `_rev` and `revision` route
parameters and the JSON body. -/
structure PutRequest where
  package : String
  rev : Option String
  revision : Option String
  body : Body

/-- The manifest validator, `validate_metadata` from `lib/utils`, kept
abstract: it either returns the normalized manifest or throws. -/
def Validator := Body → String → Except Unit Metadata

/-- The publish PUT handler: reject star/unstar bodies with 404, validate
the body (422 on failure), then dispatch to `change_package` when the
`_rev` parameter is truthy and to `addPackage` otherwise, reconciling the
result through `after_change`. Returns the ordered backend-call trace and
the outcome. -/
def handle_publish (validate_metadata : Validator) (storage : Backend)
    (req : PutRequest) : List Event × Outcome :=
  if isStarBody req.body then
    ([], Outcome.error (get404 "npm star|unstar calls are not implemented"))
  else
    match validate_metadata req.body req.package with
    | Except.error _ => ([], Outcome.error (get422 "bad incoming package data"))
    | Except.ok metadata =>
        if truthy req.rev then
          let r := after_change storage req.package metadata
            (storage.change_package req.package metadata req.revision)
            "package changed"
          (Event.changePackageCall :: r.1, r.2)
        else
          let r := after_change storage req.package metadata
            (storage.addPackage req.package metadata) "created new package"
          (Event.addPackageCall :: r.1, r.2)

/-- The DELETE handler unpublishing an entire package. -/
def remove_package_handler (storage : Backend) (pkg : String) : Outcome :=
  match storage.remove_package pkg with
  | some e => Outcome.error e
  | none => Outcome.response 201 "package removed"

/-- The DELETE handler removing a single tarball under a revision. -/
def remove_tarball_handler (storage : Backend) (pkg filename revision : String) :
    Outcome :=
  match storage.remove_tarball pkg filename revision with
  | some e => Outcome.error e
  | none => Outcome.response 201 "tarball removed"

/-! ## Direct tarball upload -/

/-- An event of the inbound request stream during a direct upload: the
`end` event or the connection `close` event. -/
inductive ReqEvent
  | reqEnd
  | reqClose
deriving DecidableEq

/-- The handler state of the direct-upload route: the `complete` flag, and
whether `stream.done()` respectively `stream.abort()` has been called. -/
structure UploadState where
  complete : Bool
  doneCalled : Bool
  abortCalled : Bool
deriving DecidableEq

/-- One inbound event, as handled by the route: on `end`, set `complete`
and call `done()`; on `close`, call `abort()` unless `complete` is set. -/
def upload_step (s : UploadState) (e : ReqEvent) : UploadState :=
  match e with
  | ReqEvent.reqEnd => UploadState.mk true true s.abortCalled
  | ReqEvent.reqClose =>
      if s.complete then s else UploadState.mk s.complete s.doneCalled true

/-- Run the direct-upload handler over the inbound event sequence, starting
with `complete = false` and neither `done` nor `abort` called. -/
def upload_run (events : List ReqEvent) : UploadState :=
  events.foldl upload_step (UploadState.mk false false false)

/-- Modelled from the spec: the storage write stream (the backend side of
`storage.addTarball`, outside the source slice) fires its `success` event
exactly when the write was finalized via `done()`, was never aborted, and
the backend accepted the data (`writeOk`); the handler then answers 201
with the upload message. After an `abort()` no `success` fires. -/
def upload_response (events : List ReqEvent) (writeOk : Bool) :
    Option (Nat × String) :=
  let s := upload_run events
  if s.doneCalled && !s.abortCalled && writeOk then
    some (201, "tarball uploaded successfully")
  else none

/-- Whether a `close` event is observed before any `end` event: since the
inbound alphabet is binary, this is decided by the first event. -/
def close_before_end : List ReqEvent → Bool
  | [] => false
  | ReqEvent.reqEnd :: _ => false
  | ReqEvent.reqClose :: _ => true

/-! ## Concrete fixtures used by witnesses and counterexamples -/

/-- A concrete attachment payload. -/
def wAtt : Attachment := Attachment.mk "ZGF0YQ=="

/-- A concrete unpopulated version record. -/
def wVer : VersionRecord := VersionRecord.mk none "metadata of 1.0.0"

/-- A concrete well-formed manifest: one attachment, one version, one tag. -/
def wMd : Metadata :=
  Metadata.mk "foo" (JField.obj [("foo-1.0.0.tgz", wAtt)])
    (JField.obj [("1.0.0", wVer)]) [("latest", "1.0.0")] (some "readme text")

/-- A concrete manifest with two attachment entries (invalid shape). -/
def badAttMd : Metadata :=
  Metadata.mk "foo" (JField.obj [("a.tgz", wAtt), ("b.tgz", wAtt)])
    (JField.obj [("1.0.0", wVer)]) [] none

/-- A concrete manifest with no attachments and two version entries. -/
def noAttMd : Metadata :=
  Metadata.mk "foo" JField.absent
    (JField.obj [("1.0.0", wVer), ("1.0.1", wVer)]) [] none

/-- A backend on which every operation succeeds. -/
def okStorage : Backend :=
  Backend.mk (fun _ _ => none) (fun _ _ _ => none) (fun _ _ _ => none)
    (fun _ _ _ _ => none) (fun _ _ => none) (fun _ => none) (fun _ _ _ => none)

/-- A concrete 409 conflict error. -/
def err409 : Err := Err.mk (some 409) "this package is already present"

/-- A concrete non-409 backend error. -/
def err500 : Err := Err.mk (some 500) "internal server error"

/-- A backend whose `addPackage` fails with the 409 conflict and every
other operation succeeds. -/
def conflictStorage : Backend :=
  Backend.mk (fun _ _ => some err409) (fun _ _ _ => none) (fun _ _ _ => none)
    (fun _ _ _ _ => none) (fun _ _ => none) (fun _ => none) (fun _ _ _ => none)

/-- A backend whose `addPackage` fails with a 500 error and every other
operation succeeds. -/
def errStorage : Backend :=
  Backend.mk (fun _ _ => some err500) (fun _ _ _ => none) (fun _ _ _ => none)
    (fun _ _ _ _ => none) (fun _ _ => none) (fun _ => none) (fun _ _ _ => none)

/-- A backend whose removal operations fail with the 500 error. -/
def removeFailStorage : Backend :=
  Backend.mk (fun _ _ => none) (fun _ _ _ => none) (fun _ _ _ => none)
    (fun _ _ _ _ => none) (fun _ _ => none) (fun _ => some err500)
    (fun _ _ _ => some err500)

/-- A validator accepting every body as the manifest `wMd`. -/
def okVal : Validator := fun _ _ => Except.ok wMd

/-- A validator accepting every body as the manifest `badAttMd`. -/
def badAttVal : Validator := fun _ _ => Except.ok badAttMd

/-- A validator accepting every body as the manifest `noAttMd`. -/
def noAttVal : Validator := fun _ _ => Except.ok noAttMd

/-- A validator rejecting every body. -/
def failVal : Validator := fun _ _ => Except.error ()

/-- A concrete publish request without revision parameters and with an
ordinary (non-star) one-key body. -/
def wReq : PutRequest := PutRequest.mk "foo" none none [("name", JVal.nonObj)]

/-- A concrete publish request whose body has the single key `users` bound
to a non-object value. -/
def usersNonObjReq : PutRequest :=
  PutRequest.mk "foo" none none [("users", JVal.nonObj)]

/-! ## Helper lemmas -/

/-- With no attachments, `after_change` returns the dispatch result. -/
lemma after_change_absent (storage : Backend) (name : String) (m : Metadata)
    (err : Option Err) (ok : String) (h : m.attachments = JField.absent) :
    after_change storage name m err ok =
      match err with
      | some e => ([], Outcome.error e)
      | none => ([], Outcome.response 201 ok) := by
  unfold after_change
  rw [h]

/-- With a valid single-attachment, single-version shape and a successful
dispatch, `after_change` runs the attachment flow. -/
lemma after_change_ok_shape_none (storage : Backend) (name : String)
    (m : Metadata) (ok : String) (t1 : String) (a : Attachment) (t2 : String)
    (v : VersionRecord) (hatt : m.attachments = JField.obj [(t1, a)])
    (hver : m.versions = JField.obj [(t2, v)]) :
    after_change storage name m none ok = tarball_flow storage name m t1 a t2 v ok := by
  unfold after_change
  rw [hatt, hver]

/-- With a valid shape and a 409 dispatch error, `after_change` still runs
the attachment flow. -/
lemma after_change_ok_shape_409 (storage : Backend) (name : String)
    (m : Metadata) (ok : String) (t1 : String) (a : Attachment) (t2 : String)
    (v : VersionRecord) (e : Err) (hatt : m.attachments = JField.obj [(t1, a)])
    (hver : m.versions = JField.obj [(t2, v)]) (he : e.status = some 409) :
    after_change storage name m (some e) ok =
      tarball_flow storage name m t1 a t2 v ok := by
  unfold after_change
  rw [hatt, hver]
  simp [he]

/-- With a valid shape and a dispatch error whose status is not 409,
`after_change` propagates that error and performs no further call. -/
lemma after_change_ok_shape_fatal (storage : Backend) (name : String)
    (m : Metadata) (ok : String) (t1 : String) (a : Attachment) (t2 : String)
    (v : VersionRecord) (e : Err) (hatt : m.attachments = JField.obj [(t1, a)])
    (hver : m.versions = JField.obj [(t2, v)]) (he : e.status ≠ some 409) :
    after_change storage name m (some e) ok = ([], Outcome.error e) := by
  unfold after_change
  rw [hatt, hver]
  simp [he]

/-- When every backend step succeeds, the attachment flow performs the
tarball write, the version commit with populated readme, the tag merge and
the notification, in this order, and answers 201. -/
lemma tarball_flow_success (storage : Backend) (name : String) (m : Metadata)
    (t1 : String) (a : Attachment) (t2 : String) (v : VersionRecord)
    (ok : String)
    (h2 : storage.addTarball name (basename t1) a.data = none)
    (h3 : storage.addVersion name t2 (set_readme v (readme_string m.readme)) none = none)
    (h4 : storage.mergeTags name m.distTags = none) :
    tarball_flow storage name m t1 a t2 v ok =
      ([Event.tarballWrite (basename t1),
        Event.versionCommit t2 (set_readme v (readme_string m.readme)),
        Event.tagMerge m.distTags, Event.notifyCall],
       Outcome.response 201 ok) := by
  unfold tarball_flow
  rw [h2]
  simp only []
  rw [h3, h4]

/-- With a non-absent attachments field whose shape is invalid,
`after_change` answers 400 unsupported registry call, whatever the dispatch
result was. -/
lemma after_change_bad_shape (storage : Backend) (name : String)
    (m : Metadata) (err : Option Err) (ok : String)
    (hatt : m.attachments ≠ JField.absent)
    (hshape : valid_attachment_shape m = false) :
    after_change storage name m err ok =
      ([], Outcome.error (get400 "unsupported registry call")) := by
  unfold valid_attachment_shape at hshape
  unfold after_change
  cases hA : m.attachments with
  | absent => exact absurd hA hatt
  | nonObject => rfl
  | obj atts =>
    rw [hA] at hshape
    match atts, hV : m.versions with
    | [], _ => rfl
    | (t1, a) :: x :: rest, _ => rfl
    | [(t1, a)], JField.absent => rfl
    | [(t1, a)], JField.nonObject => rfl
    | [(t1, a)], JField.obj [] => rfl
    | [(t1, a)], JField.obj (y :: z :: rest) => rfl
    | [(t1, a)], JField.obj [(t2, v)] =>
      rw [hV] at hshape
      exact absurd hshape (by simp)

/-- Unfolding of `handle_publish` on a non-star body that validates, when no
revision parameter is supplied: the `addPackage` dispatch runs first and its
result is reconciled by `after_change`. -/
lemma handle_publish_norev (validate : Validator) (storage : Backend)
    (req : PutRequest) (m : Metadata)
    (hstar : isStarBody req.body = false)
    (hval : validate req.body req.package = Except.ok m)
    (hrev : truthy req.rev = false) :
    handle_publish validate storage req =
      ((Event.addPackageCall ::
        (after_change storage req.package m
          (storage.addPackage req.package m) "created new package").1),
       (after_change storage req.package m
          (storage.addPackage req.package m) "created new package").2) := by
  unfold handle_publish
  rw [hstar, hval, hrev]
  simp [truthy]

/-- Unfolding of `handle_publish` on a non-star body that validates, when
the `_rev` parameter is truthy: the `change_package` dispatch runs first. -/
lemma handle_publish_rev (validate : Validator) (storage : Backend)
    (req : PutRequest) (m : Metadata)
    (hstar : isStarBody req.body = false)
    (hval : validate req.body req.package = Except.ok m)
    (hrev : truthy req.rev = true) :
    handle_publish validate storage req =
      ((Event.changePackageCall ::
        (after_change storage req.package m
          (storage.change_package req.package m req.revision) "package changed").1),
       (after_change storage req.package m
          (storage.change_package req.package m req.revision) "package changed").2) := by
  unfold handle_publish
  rw [hstar, hval, hrev]
  simp

/-- Once `done()` has been called it stays called. -/
lemma upload_done_mono (l : List ReqEvent) (s : UploadState)
    (h : s.doneCalled = true) : (l.foldl upload_step s).doneCalled = true := by
  induction l generalizing s with
  | nil => exact h
  | cons e t ih =>
    cases e with
    | reqEnd => exact ih _ rfl
    | reqClose =>
      simp only [List.foldl, upload_step]
      by_cases hc : s.complete = true
      · rw [if_pos hc]; exact ih _ h
      · rw [if_neg hc]; exact ih _ h

/-- Once `abort()` has been called it stays called. -/
lemma upload_abort_mono (l : List ReqEvent) (s : UploadState)
    (h : s.abortCalled = true) : (l.foldl upload_step s).abortCalled = true := by
  induction l generalizing s with
  | nil => exact h
  | cons e t ih =>
    cases e with
    | reqEnd => exact ih _ h
    | reqClose =>
      simp only [List.foldl, upload_step]
      by_cases hc : s.complete = true
      · rw [if_pos hc]; exact ih _ h
      · rw [if_neg hc]; exact ih _ rfl

/-- After the `complete` flag is set, no later event calls `abort()`. -/
lemma upload_complete_no_abort (l : List ReqEvent) (s : UploadState)
    (h : s.complete = true) :
    (l.foldl upload_step s).abortCalled = s.abortCalled := by
  induction l generalizing s with
  | nil => rfl
  | cons e t ih =>
    cases e with
    | reqEnd => exact ih _ rfl
    | reqClose =>
      simp only [List.foldl, upload_step, if_pos h]
      exact ih _ h

/-- An `end` event anywhere in the sequence calls `done()`. -/
lemma upload_done_of_end (l : List ReqEvent) (s : UploadState)
    (h : ReqEvent.reqEnd ∈ l) : (l.foldl upload_step s).doneCalled = true := by
  induction l generalizing s with
  | nil => cases h
  | cons e t ih =>
    cases e with
    | reqEnd => exact upload_done_mono t _ rfl
    | reqClose =>
      have ht : ReqEvent.reqEnd ∈ t := by simpa using h
      simp only [List.foldl, upload_step]
      by_cases hc : s.complete = true
      · rw [if_pos hc]; exact ih _ ht
      · rw [if_neg hc]; exact ih _ ht

/-- `abort()` is called exactly when a `close` event precedes any `end`
event. -/
lemma upload_abort_iff (l : List ReqEvent) :
    (upload_run l).abortCalled = close_before_end l := by
  cases l with
  | nil => rfl
  | cons e t =>
    cases e with
    | reqEnd =>
      show (t.foldl upload_step (UploadState.mk true true false)).abortCalled = false
      exact upload_complete_no_abort t _ rfl
    | reqClose =>
      show (t.foldl upload_step (UploadState.mk false false true)).abortCalled = true
      exact upload_abort_mono t _ rfl

/-! ## Claims -/

/-- C1: for a publish request whose manifest has exactly one attachment and
exactly one version and no revision parameter, when every backend call
succeeds the handler performs, in order, the package dispatch, the tarball
write, the version commit (with the readme field set to the manifest readme
or the empty string when absent), the tag merge and the notification, and
responds 201 with the message that a new package was created. -/
theorem C1_happy_path (validate : Validator) (storage : Backend)
    (req : PutRequest) (m : Metadata) (t1 : String) (a : Attachment)
    (t2 : String) (v : VersionRecord)
    (hstar : isStarBody req.body = false)
    (hval : validate req.body req.package = Except.ok m)
    (hrev : req.rev = none)
    (hatt : m.attachments = JField.obj [(t1, a)])
    (hver : m.versions = JField.obj [(t2, v)])
    (h1 : storage.addPackage req.package m = none)
    (h2 : storage.addTarball req.package (basename t1) a.data = none)
    (h3 : storage.addVersion req.package t2
      (set_readme v (readme_string m.readme)) none = none)
    (h4 : storage.mergeTags req.package m.distTags = none) :
    handle_publish validate storage req =
      ([Event.addPackageCall, Event.tarballWrite (basename t1),
        Event.versionCommit t2 (set_readme v (readme_string m.readme)),
        Event.tagMerge m.distTags, Event.notifyCall],
       Outcome.response 201 "created new package") := by
  rw [handle_publish_norev validate storage req m hstar hval (by rw [hrev]; rfl), h1,
    after_change_ok_shape_none storage req.package m "created new package"
      t1 a t2 v hatt hver,
    tarball_flow_success storage req.package m t1 a t2 v
      "created new package" h2 h3 h4]

/-- C1 witness: the happy path evaluated on concrete fixtures. -/
theorem C1_happy_path_witness :
    handle_publish okVal okStorage wReq =
      ([Event.addPackageCall, Event.tarballWrite (basename "foo-1.0.0.tgz"),
        Event.versionCommit "1.0.0" (set_readme wVer (readme_string wMd.readme)),
        Event.tagMerge wMd.distTags, Event.notifyCall],
       Outcome.response 201 "created new package") :=
  C1_happy_path okVal okStorage wReq wMd "foo-1.0.0.tgz" wAtt "1.0.0" wVer
    (by decide) rfl rfl rfl rfl rfl rfl rfl rfl

/-- C2: with exactly one attachment and one version, a 409 error of the
dispatch step (`addPackage` or `change_package`) does not abort the flow:
the tarball write, the version commit and the tag merge all still happen. -/
theorem C2_conflict_tolerated (validate : Validator) (storage : Backend)
    (req : PutRequest) (m : Metadata) (t1 : String) (a : Attachment)
    (t2 : String) (v : VersionRecord) (e : Err)
    (hstar : isStarBody req.body = false)
    (hval : validate req.body req.package = Except.ok m)
    (hatt : m.attachments = JField.obj [(t1, a)])
    (hver : m.versions = JField.obj [(t2, v)])
    (he : e.status = some 409)
    (hdisp : (if truthy req.rev then
                storage.change_package req.package m req.revision
              else storage.addPackage req.package m) = some e)
    (h2 : storage.addTarball req.package (basename t1) a.data = none)
    (h3 : storage.addVersion req.package t2
      (set_readme v (readme_string m.readme)) none = none)
    (h4 : storage.mergeTags req.package m.distTags = none) :
    handle_publish validate storage req =
      ([if truthy req.rev then Event.changePackageCall else Event.addPackageCall,
        Event.tarballWrite (basename t1),
        Event.versionCommit t2 (set_readme v (readme_string m.readme)),
        Event.tagMerge m.distTags, Event.notifyCall],
       Outcome.response 201
         (if truthy req.rev then "package changed" else "created new package")) := by
  cases htru : truthy req.rev with
  | false =>
    rw [htru] at hdisp
    simp at hdisp
    rw [handle_publish_norev validate storage req m hstar hval htru, hdisp,
      after_change_ok_shape_409 storage req.package m "created new package"
        t1 a t2 v e hatt hver he,
      tarball_flow_success storage req.package m t1 a t2 v
        "created new package" h2 h3 h4]
    simp [htru]
  | true =>
    rw [htru] at hdisp
    simp at hdisp
    rw [handle_publish_rev validate storage req m hstar hval htru, hdisp,
      after_change_ok_shape_409 storage req.package m "package changed"
        t1 a t2 v e hatt hver he,
      tarball_flow_success storage req.package m t1 a t2 v
        "package changed" h2 h3 h4]
    simp [htru]

/-- C2 witness: a 409 on `addPackage` with a valid single-attachment
manifest still writes the tarball, the version and the tags. -/
theorem C2_conflict_tolerated_witness :
    handle_publish okVal conflictStorage wReq =
      ([Event.addPackageCall, Event.tarballWrite (basename "foo-1.0.0.tgz"),
        Event.versionCommit "1.0.0" (set_readme wVer (readme_string wMd.readme)),
        Event.tagMerge wMd.distTags, Event.notifyCall],
       Outcome.response 201 "created new package") := by
  have h := C2_conflict_tolerated okVal conflictStorage wReq wMd
    "foo-1.0.0.tgz" wAtt "1.0.0" wVer err409 (by decide) rfl rfl rfl rfl
    (by decide) rfl rfl rfl
  simpa [truthy, wReq] using h

/-- C3 counterexample: a manifest that carries two attachment entries and a
dispatch failure with status 500 are answered with the 400 unsupported
registry call error, not with the backend error verbatim, refuting the
claim for manifests whose attachment shape is invalid. -/
theorem C3_counterexample :
    badAttMd.attachments ≠ JField.absent ∧
    errStorage.addPackage wReq.package badAttMd = some err500 ∧
    err500.status = some 500 ∧
    (handle_publish badAttVal errStorage wReq).2 =
      Outcome.error (get400 "unsupported registry call") ∧
    (handle_publish badAttVal errStorage wReq).2 ≠ Outcome.error err500 := by
  decide

/-- C3 amended: for a manifest whose attachments and versions each hold
exactly one entry, a dispatch error with status other than 409 aborts the
flow: no tarball write, version commit or tag merge happens and the backend
error is propagated verbatim. -/
theorem C3_fatal_error_aborts (validate : Validator) (storage : Backend)
    (req : PutRequest) (m : Metadata) (t1 : String) (a : Attachment)
    (t2 : String) (v : VersionRecord) (e : Err)
    (hstar : isStarBody req.body = false)
    (hval : validate req.body req.package = Except.ok m)
    (hatt : m.attachments = JField.obj [(t1, a)])
    (hver : m.versions = JField.obj [(t2, v)])
    (he : e.status ≠ some 409)
    (hdisp : (if truthy req.rev then
                storage.change_package req.package m req.revision
              else storage.addPackage req.package m) = some e) :
    handle_publish validate storage req =
      ([if truthy req.rev then Event.changePackageCall else Event.addPackageCall],
       Outcome.error e) := by
  cases htru : truthy req.rev with
  | false =>
    rw [htru] at hdisp
    simp at hdisp
    rw [handle_publish_norev validate storage req m hstar hval htru, hdisp,
      after_change_ok_shape_fatal storage req.package m "created new package"
        t1 a t2 v e hatt hver he]
    simp [htru]
  | true =>
    rw [htru] at hdisp
    simp at hdisp
    rw [handle_publish_rev validate storage req m hstar hval htru, hdisp,
      after_change_ok_shape_fatal storage req.package m "package changed"
        t1 a t2 v e hatt hver he]
    simp [htru]

/-- C3 amended witness: a 500 on `addPackage` with a valid
single-attachment manifest aborts with only the dispatch call made. -/
theorem C3_fatal_error_aborts_witness :
    handle_publish okVal errStorage wReq =
      ([Event.addPackageCall], Outcome.error err500) := by
  have h := C3_fatal_error_aborts okVal errStorage wReq wMd
    "foo-1.0.0.tgz" wAtt "1.0.0" wVer err500 (by decide) rfl rfl rfl
    (by decide) (by decide)
  simpa [truthy, wReq] using h

/-- C4 counterexample: a manifest with no attachments field and two entries
in versions is not answered with the 400 unsupported registry call error;
the backend result is authoritative and the publish succeeds, refuting the
unconditioned versions disjunct of the claim. -/
theorem C4_counterexample :
    noAttMd.attachments = JField.absent ∧
    noAttMd.versions = JField.obj [("1.0.0", wVer), ("1.0.1", wVer)] ∧
    (handle_publish noAttVal okStorage wReq).2 =
      Outcome.response 201 "created new package" ∧
    (handle_publish noAttVal okStorage wReq).2 ≠
      Outcome.error (get400 "unsupported registry call") := by
  decide

/-- C4 amended: when the manifest carries a non-nil attachments field and
attachments or versions is not a mapping with exactly one entry, the
outcome is the 400 unsupported registry call error, with only the dispatch
call made. -/
theorem C4_bad_shape_rejected (validate : Validator) (storage : Backend)
    (req : PutRequest) (m : Metadata)
    (hstar : isStarBody req.body = false)
    (hval : validate req.body req.package = Except.ok m)
    (hatt : m.attachments ≠ JField.absent)
    (hshape : valid_attachment_shape m = false) :
    handle_publish validate storage req =
      ([if truthy req.rev then Event.changePackageCall else Event.addPackageCall],
       Outcome.error (get400 "unsupported registry call")) := by
  cases htru : truthy req.rev with
  | false =>
    rw [handle_publish_norev validate storage req m hstar hval htru,
      after_change_bad_shape storage req.package m _ "created new package"
        hatt hshape]
    simp [htru]
  | true =>
    rw [handle_publish_rev validate storage req m hstar hval htru,
      after_change_bad_shape storage req.package m _ "package changed"
        hatt hshape]
    simp [htru]

/-- C4 amended witness: a manifest with two attachment entries is rejected
with the 400 unsupported registry call error. -/
theorem C4_bad_shape_rejected_witness :
    handle_publish badAttVal okStorage wReq =
      ([Event.addPackageCall],
       Outcome.error (get400 "unsupported registry call")) := by
  have h := C4_bad_shape_rejected badAttVal okStorage wReq badAttMd
    (by decide) rfl (by decide) (by decide)
  simpa [truthy, wReq] using h

/-- C5 counterexample: a body whose only key is `users` bound to a value
that is not an object is not answered with the 404 not-implemented error;
it falls through to manifest validation (here failing with 422), refuting
the claim for bodies whose `users` value is not an object. -/
theorem C5_counterexample :
    usersNonObjReq.body = [("users", JVal.nonObj)] ∧
    (handle_publish failVal okStorage usersNonObjReq).2 =
      Outcome.error (get422 "bad incoming package data") ∧
    (handle_publish failVal okStorage usersNonObjReq).2 ≠
      Outcome.error (get404 "npm star|unstar calls are not implemented") := by
  decide

/-- C5 amended: a body that is a mapping with exactly one key `users` whose
value is an object is always answered with the 404 not-implemented error,
whatever the package name, the validator and the backend, and with no
backend call made. -/
theorem C5_star_rejected (validate : Validator) (storage : Backend)
    (req : PutRequest) (h : req.body = [("users", JVal.obj)]) :
    handle_publish validate storage req =
      ([], Outcome.error (get404 "npm star|unstar calls are not implemented")) := by
  unfold handle_publish
  rw [h]
  rfl

/-- C5 amended witness: a star body on concrete fixtures. -/
theorem C5_star_rejected_witness :
    handle_publish okVal okStorage
      (PutRequest.mk "foo" none none [("users", JVal.obj)]) =
      ([], Outcome.error (get404 "npm star|unstar calls are not implemented")) :=
  C5_star_rejected okVal okStorage
    (PutRequest.mk "foo" none none [("users", JVal.obj)]) rfl

/-- C6: in a direct tarball upload, an `end` event of the inbound stream
calls `done()` on the write stream and, when no `close` preceded it and the
backend accepts the data, the 201 upload response fires; a `close` observed
before any `end` calls `abort()` and no success response fires. -/
theorem C6_direct_upload (events : List ReqEvent) (writeOk : Bool) :
    (ReqEvent.reqEnd ∈ events → (upload_run events).doneCalled = true) ∧
    (ReqEvent.reqEnd ∈ events → close_before_end events = false →
      writeOk = true →
      upload_response events writeOk =
        some (201, "tarball uploaded successfully")) ∧
    (close_before_end events = true →
      (upload_run events).abortCalled = true ∧
      upload_response events writeOk = none) := by
  refine ⟨fun hend => upload_done_of_end events _ hend, fun hend hcb hw => ?_,
    fun hcb => ?_⟩
  · unfold upload_response
    have hd := upload_done_of_end events (UploadState.mk false false false) hend
    have ha := upload_abort_iff events
    rw [hcb] at ha
    simp [upload_run] at hd ha ⊢
    simp [upload_run, hd, ha, hw]
  · have ha := upload_abort_iff events
    rw [hcb] at ha
    refine ⟨ha, ?_⟩
    unfold upload_response
    simp [ha]

/-- C6 witness: an upload whose stream ends normally succeeds; one whose
connection closes first is aborted and yields no success. -/
theorem C6_direct_upload_witness :
    upload_response [ReqEvent.reqEnd] true =
      some (201, "tarball uploaded successfully") ∧
    ((upload_run [ReqEvent.reqClose, ReqEvent.reqEnd]).abortCalled = true ∧
      upload_response [ReqEvent.reqClose, ReqEvent.reqEnd] true = none) :=
  ⟨(C6_direct_upload [ReqEvent.reqEnd] true).2.1 (by decide) (by decide) rfl,
   (C6_direct_upload [ReqEvent.reqClose, ReqEvent.reqEnd] true).2.2 (by decide)⟩

/-- C7: a non-star body that fails manifest validation is answered with the
422 invalid manifest error and no backend call is made. -/
theorem C7_invalid_manifest (validate : Validator) (storage : Backend)
    (req : PutRequest)
    (hstar : isStarBody req.body = false)
    (hval : validate req.body req.package = Except.error ()) :
    handle_publish validate storage req =
      ([], Outcome.error (get422 "bad incoming package data")) := by
  unfold handle_publish
  rw [hstar, hval]
  simp

/-- C7 witness: the rejecting validator on concrete fixtures. -/
theorem C7_invalid_manifest_witness :
    handle_publish failVal okStorage wReq =
      ([], Outcome.error (get422 "bad incoming package data")) :=
  C7_invalid_manifest failVal okStorage wReq (by decide) rfl

/-- C8: with no attachments, the request dispatches to `change_package`
when the revision parameter is truthy and to `addPackage` otherwise, and
the backend result is authoritative: an error propagates verbatim and
success answers 201 with the success message of the taken branch. -/
theorem C8_no_attachments (validate : Validator) (storage : Backend)
    (req : PutRequest) (m : Metadata)
    (hstar : isStarBody req.body = false)
    (hval : validate req.body req.package = Except.ok m)
    (hatt : m.attachments = JField.absent) :
    (∀ e, (if truthy req.rev then
             storage.change_package req.package m req.revision
           else storage.addPackage req.package m) = some e →
      handle_publish validate storage req =
        ([if truthy req.rev then Event.changePackageCall
          else Event.addPackageCall], Outcome.error e)) ∧
    ((if truthy req.rev then
        storage.change_package req.package m req.revision
      else storage.addPackage req.package m) = none →
      handle_publish validate storage req =
        ([if truthy req.rev then Event.changePackageCall
          else Event.addPackageCall],
         Outcome.response 201
           (if truthy req.rev then "package changed"
            else "created new package"))) := by
  constructor
  · intro e hdisp
    cases htru : truthy req.rev with
    | false =>
      rw [htru] at hdisp
      simp at hdisp
      rw [handle_publish_norev validate storage req m hstar hval htru, hdisp,
        after_change_absent storage req.package m _ "created new package" hatt]
      simp [htru]
    | true =>
      rw [htru] at hdisp
      simp at hdisp
      rw [handle_publish_rev validate storage req m hstar hval htru, hdisp,
        after_change_absent storage req.package m _ "package changed" hatt]
      simp [htru]
  · intro hdisp
    cases htru : truthy req.rev with
    | false =>
      rw [htru] at hdisp
      simp at hdisp
      rw [handle_publish_norev validate storage req m hstar hval htru, hdisp,
        after_change_absent storage req.package m _ "created new package" hatt]
      simp [htru]
    | true =>
      rw [htru] at hdisp
      simp at hdisp
      rw [handle_publish_rev validate storage req m hstar hval htru, hdisp,
        after_change_absent storage req.package m _ "package changed" hatt]
      simp [htru]

/-- C8 witness: with no attachments a dispatch error propagates verbatim. -/
theorem C8_no_attachments_witness :
    handle_publish noAttVal errStorage wReq =
      ([Event.addPackageCall], Outcome.error err500) := by
  have h := (C8_no_attachments noAttVal errStorage wReq noAttMd
    (by decide) rfl rfl).1 err500 (by decide)
  simpa [truthy, wReq] using h

/-- C9: removing a package or a tarball answers 201 with the fixed
confirmation message on backend success, and propagates the backend error
unchanged on failure. -/
theorem C9_removal (storage : Backend) (pkg filename revision : String) :
    (storage.remove_package pkg = none →
      remove_package_handler storage pkg =
        Outcome.response 201 "package removed") ∧
    (∀ e, storage.remove_package pkg = some e →
      remove_package_handler storage pkg = Outcome.error e) ∧
    (storage.remove_tarball pkg filename revision = none →
      remove_tarball_handler storage pkg filename revision =
        Outcome.response 201 "tarball removed") ∧
    (∀ e, storage.remove_tarball pkg filename revision = some e →
      remove_tarball_handler storage pkg filename revision =
        Outcome.error e) := by
  refine ⟨fun h => ?_, fun e h => ?_, fun h => ?_, fun e h => ?_⟩ <;>
    simp [remove_package_handler, remove_tarball_handler, h]

/-- C9 witness: the removal handlers on concrete backends. -/
theorem C9_removal_witness :
    remove_package_handler okStorage "foo" =
      Outcome.response 201 "package removed" ∧
    remove_tarball_handler okStorage "foo" "foo-1.0.0.tgz" "rev-1" =
      Outcome.response 201 "tarball removed" ∧
    remove_package_handler removeFailStorage "foo" = Outcome.error err500 ∧
    remove_tarball_handler removeFailStorage "foo" "foo-1.0.0.tgz" "rev-1" =
      Outcome.error err500 :=
  ⟨(C9_removal okStorage "foo" "foo-1.0.0.tgz" "rev-1").1 rfl,
   (C9_removal okStorage "foo" "foo-1.0.0.tgz" "rev-1").2.2.1 rfl,
   (C9_removal removeFailStorage "foo" "foo-1.0.0.tgz" "rev-1").2.1 err500 rfl,
   (C9_removal removeFailStorage "foo" "foo-1.0.0.tgz" "rev-1").2.2.2 err500 rfl⟩

/-- C10: when `addPackage` fails with status 409 on a request without a
revision parameter and the attachment flow then succeeds, the response is
still 201 with the message that a new package was created. -/
theorem C10_conflict_message (validate : Validator) (storage : Backend)
    (req : PutRequest) (m : Metadata) (t1 : String) (a : Attachment)
    (t2 : String) (v : VersionRecord) (e : Err)
    (hstar : isStarBody req.body = false)
    (hval : validate req.body req.package = Except.ok m)
    (hrev : req.rev = none)
    (hatt : m.attachments = JField.obj [(t1, a)])
    (hver : m.versions = JField.obj [(t2, v)])
    (he : e.status = some 409)
    (h1 : storage.addPackage req.package m = some e)
    (h2 : storage.addTarball req.package (basename t1) a.data = none)
    (h3 : storage.addVersion req.package t2
      (set_readme v (readme_string m.readme)) none = none)
    (h4 : storage.mergeTags req.package m.distTags = none) :
    (handle_publish validate storage req).2 =
      Outcome.response 201 "created new package" := by
  rw [handle_publish_norev validate storage req m hstar hval
      (by rw [hrev]; rfl), h1,
    after_change_ok_shape_409 storage req.package m "created new package"
      t1 a t2 v e hatt hver he,
    tarball_flow_success storage req.package m t1 a t2 v
      "created new package" h2 h3 h4]

/-- C10 witness: the 409 conflict path on concrete fixtures still answers
with the created-new-package message. -/
theorem C10_conflict_message_witness :
    (handle_publish okVal conflictStorage wReq).2 =
      Outcome.response 201 "created new package" :=
  C10_conflict_message okVal conflictStorage wReq wMd "foo-1.0.0.tgz" wAtt
    "1.0.0" wVer err409 (by decide) rfl rfl rfl rfl rfl rfl rfl rfl rfl

end Publish
